import Mathlib

/-!
Shallow embedding of the account rotator and health tracker of
gemini-cli-openai: `src/account-health.ts` (class `AccountHealthTracker`)
and the shared-cursor variant of `src/multi-account-manager.ts`
(class `MultiAccountManager`).

Stateful TypeScript becomes explicit state passing: the tracker's
`localHealth: Map<number, AccountHealth>` is a function
`Nat → Option AccountHealth`; `Date.now()` is an explicit `now : Int`
parameter (milliseconds); each Cloudflare KV interaction's outcome
(value, absent, or thrown error) is an explicit input, since the store
lives outside the process.
-/

namespace GeminiRotator

/-- Mirror of interface `AccountHealth` in account-health.ts:
`{isRateLimited, lastRateLimitTime, failureCount, cooldownEnds}`. -/
structure AccountHealth where
  isRateLimited : Bool
  lastRateLimitTime : Int
  failureCount : Nat
  cooldownEnds : Int
deriving Repr, DecidableEq

/-- `DEFAULT_COOLDOWN_MS = 60 * 1000` in account-health.ts. -/
def DEFAULT_COOLDOWN_MS : Int := 60 * 1000

/-- The tracker's local cache `localHealth : Map<number, AccountHealth>`. -/
def HealthMap : Type := Nat → Option AccountHealth

/-- The empty `Map` the tracker starts with. -/
def emptyHealth : HealthMap := fun _ => none

/-- `this.localHealth.set(accountId, h)`. -/
def setHealth (m : HealthMap) (accountId : Nat) (h : AccountHealth) : HealthMap :=
  fun i => if i = accountId then some h else m i

/-- Count stored for an account: `failureCount` of its record, 0 when absent
(the `?.failureCount || 0` pattern in the source). -/
def fcAt (m : HealthMap) (accountId : Nat) : Nat :=
  match m accountId with
  | some h => h.failureCount
  | none => 0

/-- `AccountHealthTracker.recordFailure(accountId)`: builds
`{isRateLimited: true, lastRateLimitTime: now,
  failureCount: (localHealth.get(accountId)?.failureCount || 0) + 1,
  cooldownEnds: now + DEFAULT_COOLDOWN_MS}`
and stores it in the local cache.  (The fire-and-forget
`persistHealthToKV` write does not touch local state; whether it was
issued is tracked by the caller `reportFailure` below.) -/
def recordFailure (m : HealthMap) (accountId : Nat) (now : Int) : HealthMap :=
  let cooldownEnds := now + DEFAULT_COOLDOWN_MS
  let prev : Nat :=
    match m accountId with
    | some h => h.failureCount
    | none => 0
  setHealth m accountId ⟨true, now, prev + 1, cooldownEnds⟩

/-- Outcome of the KV health read
`this.env.GEMINI_CLI_KV.get(account_health_<id>, "json")`:
the call threw (`failure`), returned null (`absent`), or returned a record. -/
inductive KVRead where
  | failure : KVRead
  | absent : KVRead
  | value : AccountHealth → KVRead
deriving Repr, DecidableEq

/-- The KV-consulting tail of `isAccountHealthy`: if the read yielded a
record whose `cooldownEnds > now`, adopt it into the local cache and
report unhealthy; on null or a thrown read (caught), fall through to
`return true` (fail open). -/
def checkKV (m : HealthMap) (accountId : Nat) (now : Int) : KVRead → Bool × HealthMap
  | KVRead.value kvHealth =>
    if kvHealth.cooldownEnds > now then (false, setHealth m accountId kvHealth)
    else (true, m)
  | KVRead.failure => (true, m)
  | KVRead.absent => (true, m)

/-- `AccountHealthTracker.isAccountHealthy(accountId)`: local-cache-first —
a local record with `cooldownEnds > now` means unhealthy with no remote
call; otherwise a stale `isRateLimited` flag is cleared and the shared
store is consulted (`checkKV`).  Returns the boolean result and the
updated local cache. -/
def isAccountHealthy (m : HealthMap) (accountId : Nat) (now : Int) (kv : KVRead) :
    Bool × HealthMap :=
  match m accountId with
  | some localStatus =>
    if localStatus.cooldownEnds > now then (false, m)
    else
      let m1 := if localStatus.isRateLimited then
          setHealth m accountId { localStatus with isRateLimited := false }
        else m
      checkKV m1 accountId now kv
  | none => checkKV m accountId now kv

/-- `AccountHealthTracker.recordSuccess(accountId)`: if a local record
exists, has `failureCount > 0` and is not rate-limited, reset its
`failureCount` to 0; otherwise do nothing. -/
def recordSuccess (m : HealthMap) (accountId : Nat) : HealthMap :=
  match m accountId with
  | some current =>
    if current.failureCount > 0 && !current.isRateLimited then
      setHealth m accountId { current with failureCount := 0 }
    else m
  | none => m

/-- An `AuthManager` as the rotator sees it: only its `id` matters
(ids are assigned positionally by `initializeAccounts`/`addAccount`). -/
structure Account where
  id : Nat
deriving Repr, DecidableEq

/-- Outcome of `this.env.GEMINI_CLI_KV.get("account_rotation_index")`
followed by `parseInt(kvIndex, 10)`: the get threw (`failure`),
returned null (`absent`), or returned a string whose `parseInt` result
is an integer (`value (some v)`) or `NaN` (`value none`). -/
inductive CursorRead where
  | failure : CursorRead
  | absent : CursorRead
  | value : Option Int → CursorRead
deriving Repr, DecidableEq

/-- The value of `currentIndex` right after the try/catch around the KV
read: on a thrown or null read it stays `this.currentAccountIndex`
(the local field), else it is the `parseInt` result (`none` = `NaN`). -/
def rawCursor (read : CursorRead) (localIndex : Int) : Option Int :=
  match read with
  | CursorRead.failure => some localIndex
  | CursorRead.absent => some localIndex
  | CursorRead.value p => p

/-- The normalization in `getAccount`:
`if (isNaN(currentIndex) || currentIndex < 0) currentIndex = 0;
 currentIndex = currentIndex % this.accounts.length;`
(`none` plays `NaN`; JS `%` on a non-negative int is `Nat` mod). -/
def normalizeCursor (c : Option Int) (len : Nat) : Nat :=
  let c1 : Int :=
    match c with
    | none => 0
    | some v => if v < 0 then 0 else v
  c1.toNat % len

/-- Result of `getAccount`: `error` models
`throw new Error("No service accounts configured")`. -/
inductive GetOutcome where
  | error : GetOutcome
  | ok : Account → GetOutcome
deriving Repr, DecidableEq

/-- The `while (attempts < this.accounts.length)` loop of `getAccount`,
by fuel = remaining iterations (started at `accounts.length`).
`healthReads k` is the KV health-read outcome seen by the health check of
attempt `k`.  On a healthy candidate it returns the account together with
the cursor value successfully written to KV (`none` when the awaited
`put` threw — the catch only logs); on exhaustion it returns `none`.
The updated tracker cache is threaded through. -/
def scanLoop (accounts : List Account) (now : Int) (healthReads : Nat → KVRead)
    (putFails : Bool) : Nat → HealthMap → Nat → (Option (Account × Option Nat)) × HealthMap
  | 0, m, _ => (none, m)
  | fuel+1, m, currentIndex =>
    let account := accounts.getD currentIndex ⟨0⟩
    let attempt := accounts.length - (fuel + 1)
    let res := isAccountHealthy m account.id now (healthReads attempt)
    if res.1 then
      let nextIndex := (currentIndex + 1) % accounts.length
      (some (account, if putFails then none else some nextIndex), res.2)
    else
      scanLoop accounts now healthReads putFails fuel res.2 ((currentIndex + 1) % accounts.length)

/-- What one `getAccount()` call produces: its outcome, the tracker cache
after the embedded health checks, and the cursor value successfully
written to the shared store, if any. -/
structure GetAccountResult where
  outcome : GetOutcome
  tracker : HealthMap
  cursorWrite : Option Nat

/-- `MultiAccountManager.getAccount()` (shared-cursor variant): throw on an
empty pool; read and normalize the shared rotation cursor (falling back to
the local `currentAccountIndex`, which this variant never changes from 0);
scan circularly for a healthy account, persisting `(i+1) % N` on success
(a failed put is caught); if no candidate is healthy, return the account
at the pre-scan cursor position `startIndex`. -/
def getAccount (accounts : List Account) (localIndex : Int) (m : HealthMap) (now : Int)
    (cursorRead : CursorRead) (healthReads : Nat → KVRead) (putFails : Bool) :
    GetAccountResult :=
  if accounts.length = 0 then ⟨GetOutcome.error, m, none⟩
  else
    let startIndex := normalizeCursor (rawCursor cursorRead localIndex) accounts.length
    match scanLoop accounts now healthReads putFails accounts.length m startIndex with
    | (some (acc, w), m1) => ⟨GetOutcome.ok acc, m1, w⟩
    | (none, m1) => ⟨GetOutcome.ok (accounts.getD startIndex ⟨0⟩), m1, none⟩

/-- `MultiAccountManager.reportFailure(account, statusCode)`: forwards to
`recordFailure` exactly on status 429 or 503.  The boolean records whether
`recordFailure` (and with it its fire-and-forget shared-store write) was
invoked; on any other status nothing at all happens. -/
def reportFailure (m : HealthMap) (accountId : Nat) (statusCode : Int) (now : Int) :
    HealthMap × Bool :=
  if statusCode = 429 ∨ statusCode = 503 then (recordFailure m accountId now, true)
  else (m, false)

/-- A pool of N accounts with positional ids, as `initializeAccounts`
builds from `GCP_SERVICE_ACCOUNT_0..GCP_SERVICE_ACCOUNT_{N-1}`. -/
def poolOf (n : Nat) : List Account := (List.range n).map Account.mk

/-- One `getAccount()` call against an idealized shared store: the cursor
read returns the most recently written value (absent before any write),
every write succeeds, and health reads find no record. -/
def stepCall (accounts : List Account) (st : Option Nat × HealthMap) :
    GetOutcome × (Option Nat × HealthMap) :=
  let read : CursorRead :=
    match st.1 with
    | none => CursorRead.absent
    | some v => CursorRead.value (some (v : Int))
  let r := getAccount accounts 0 st.2 0 read (fun _ => KVRead.absent) false
  (r.outcome,
   ((match r.cursorWrite with
     | some v => some v
     | none => st.1), r.tracker))

/-- The sequence of `getAccount()` calls of C1: call `k` of a pool of `n`
accounts, starting from an absent cursor and an empty tracker cache. -/
def callSeq (n : Nat) : Nat → GetOutcome × (Option Nat × HealthMap)
  | 0 => stepCall (poolOf n) (none, emptyHealth)
  | k+1 => stepCall (poolOf n) (callSeq n k).2

/-- One tracker-facing operation, as performed by the tracker's public
methods and by the rotator on its behalf. -/
inductive TrackerOp where
  | fail (accountId : Nat) (now : Int)
  | success (accountId : Nat)
  | check (accountId : Nat) (now : Int) (kv : KVRead)
deriving Repr, DecidableEq

/-- Effect of one operation on the tracker's local cache. -/
def applyOp (m : HealthMap) : TrackerOp → HealthMap
  | TrackerOp.fail accountId now => recordFailure m accountId now
  | TrackerOp.success accountId => recordSuccess m accountId
  | TrackerOp.check accountId now kv => (isAccountHealthy m accountId now kv).2

/-- Local cache of the C7 counterexample: account 7 has an expired
cooldown (ended at 10) with failureCount 5. -/
def c7Map : HealthMap := setHealth emptyHealth 7 ⟨false, 0, 5, 10⟩

/-- Shared-store record of the C7 counterexample: written by another
instance, failureCount 1, cooldown still running. -/
def c7Rec : AccountHealth := ⟨true, 15, 1, 100000⟩

lemma setHealth_self (m : HealthMap) (accountId : Nat) (h : AccountHealth) :
    setHealth m accountId h accountId = some h := by
  simp [setHealth]

lemma setHealth_other (m : HealthMap) (accountId i : Nat) (h : AccountHealth)
    (hne : i ≠ accountId) : setHealth m accountId h i = m i := by
  simp [setHealth, hne]

lemma recordFailure_self (m : HealthMap) (accountId : Nat) (now : Int) :
    (recordFailure m accountId now) accountId =
      some ⟨true, now, fcAt m accountId + 1, now + DEFAULT_COOLDOWN_MS⟩ := by
  unfold recordFailure fcAt
  rw [setHealth_self]

lemma fcAt_recordFailure_self (m : HealthMap) (accountId : Nat) (now : Int) :
    fcAt (recordFailure m accountId now) accountId = fcAt m accountId + 1 := by
  unfold fcAt
  rw [recordFailure_self]
  rfl

lemma isAccountHealthy_of_cooling (m : HealthMap) (accountId : Nat) (now : Int)
    (kv : KVRead) (s : AccountHealth) (hs : m accountId = some s)
    (hc : now < s.cooldownEnds) : isAccountHealthy m accountId now kv = (false, m) := by
  unfold isAccountHealthy
  rw [hs]
  simp [hc]

lemma isAccountHealthy_expired_absent (m : HealthMap) (accountId : Nat) (now : Int)
    (s : AccountHealth) (hs : m accountId = some s) (hc : s.cooldownEnds ≤ now) :
    (isAccountHealthy m accountId now KVRead.absent).1 = true := by
  unfold isAccountHealthy
  rw [hs]
  simp [checkKV, not_lt.mpr hc]

/-- Claim C3: after `recordFailure(id)` at time `t` (default 60s cooldown,
no shared-store record for `id`), `isAccountHealthy(id)` returns false at
every time strictly before `t + 60s`, and returns true at every time
`≥ t + 60s` when no further failure was recorded. -/
theorem C3_cooldown_boundary (m : HealthMap) (accountId : Nat) (t u : Int) :
    (u < t + DEFAULT_COOLDOWN_MS →
      (isAccountHealthy (recordFailure m accountId t) accountId u KVRead.absent).1 = false) ∧
    (t + DEFAULT_COOLDOWN_MS ≤ u →
      (isAccountHealthy (recordFailure m accountId t) accountId u KVRead.absent).1 = true) := by
  constructor
  · intro hu
    rw [isAccountHealthy_of_cooling _ _ _ _ _ (recordFailure_self m accountId t) hu]
  · intro hu
    exact isAccountHealthy_expired_absent _ _ _ _ (recordFailure_self m accountId t) hu

/-- Witness for C3 at the spec scenario: failure at t=0, check at t=30s
(false) and t=61s (true). -/
theorem C3_cooldown_boundary_witness :
    (isAccountHealthy (recordFailure emptyHealth 1 0) 1 30000 KVRead.absent).1 = false ∧
    (isAccountHealthy (recordFailure emptyHealth 1 0) 1 61000 KVRead.absent).1 = true :=
  ⟨(C3_cooldown_boundary emptyHealth 1 0 30000).1 (by decide),
   (C3_cooldown_boundary emptyHealth 1 0 61000).2 (by decide)⟩

/-- Claim C4: `recordFailure(id)` at time `now` stores
`{isRateLimited: true, lastFailureTime: now, failureCount: previous + 1,
cooldownEndsAt: now + 60s}`; two failures within one window give
`failureCount = 2` and a `cooldownEnds` recomputed from the second
timestamp. -/
theorem C4_recordFailure_fields (m : HealthMap) (accountId : Nat) (now : Int) :
    (recordFailure m accountId now) accountId =
      some ⟨true, now, fcAt m accountId + 1, now + DEFAULT_COOLDOWN_MS⟩ ∧
    ∀ t1 t2 : Int, t1 ≤ t2 → t2 < t1 + DEFAULT_COOLDOWN_MS →
      (recordFailure (recordFailure emptyHealth accountId t1) accountId t2) accountId =
        some ⟨true, t2, 2, t2 + DEFAULT_COOLDOWN_MS⟩ := by
  refine ⟨recordFailure_self m accountId now, ?_⟩
  intro t1 t2 _ _
  rw [recordFailure_self, fcAt_recordFailure_self]
  rfl

/-- Witness for C4: a first failure at t=5s from an empty cache, and the
double-failure scenario at t1=0, t2=30s. -/
theorem C4_recordFailure_fields_witness :
    (recordFailure emptyHealth 0 5000) 0 =
      some ⟨true, 5000, fcAt emptyHealth 0 + 1, 5000 + DEFAULT_COOLDOWN_MS⟩ ∧
    (recordFailure (recordFailure emptyHealth 0 0) 0 30000) 0 =
      some ⟨true, 30000, 2, 30000 + DEFAULT_COOLDOWN_MS⟩ :=
  ⟨(C4_recordFailure_fields emptyHealth 0 5000).1,
   (C4_recordFailure_fields emptyHealth 0 0).2 0 30000 (by decide) (by decide)⟩

/-- Claim C5: when the shared-store read inside `isAccountHealthy(id)`
fails (throws), the call still returns a boolean and that boolean is
true (fail open); the read is reached exactly when no local record is in
active cooldown, which the hypothesis states. -/
theorem C5_kv_failure_fail_open (m : HealthMap) (accountId : Nat) (now : Int)
    (h : ∀ s, m accountId = some s → ¬ now < s.cooldownEnds) :
    (isAccountHealthy m accountId now KVRead.failure).1 = true := by
  unfold isAccountHealthy
  cases hm : m accountId with
  | none => simp [checkKV]
  | some s =>
    have hns := h s hm
    simp [checkKV, hns]

/-- Witness for C5: empty local cache, store read throws, result is true. -/
theorem C5_kv_failure_fail_open_witness :
    (isAccountHealthy emptyHealth 0 0 KVRead.failure).1 = true :=
  C5_kv_failure_fail_open emptyHealth 0 0 (fun _ h => Option.noConfusion h)

/-- Claim C9: `reportFailure(account, statusCode)` invokes
`recordFailure(account.id)` exactly when the status is 429 or 503; any
other status changes nothing, locally or in the shared store (the boolean
component records whether `recordFailure`, and with it its fire-and-forget
store write, was invoked). -/
theorem C9_reportFailure_status_filter (m : HealthMap) (accountId : Nat)
    (statusCode : Int) (now : Int) :
    (reportFailure m accountId statusCode now = (recordFailure m accountId now, true) ↔
      (statusCode = 429 ∨ statusCode = 503)) ∧
    (¬(statusCode = 429 ∨ statusCode = 503) →
      reportFailure m accountId statusCode now = (m, false)) := by
  unfold reportFailure
  by_cases h : statusCode = 429 ∨ statusCode = 503
  · simp [h]
  · simp [h, Prod.ext_iff]

/-- Witness for C9: status 429 forwards to `recordFailure`; status 404 is
a no-op. -/
theorem C9_reportFailure_status_filter_witness :
    reportFailure emptyHealth 0 429 0 = (recordFailure emptyHealth 0 0, true) ∧
    reportFailure emptyHealth 0 404 0 = (emptyHealth, false) :=
  ⟨(C9_reportFailure_status_filter emptyHealth 0 429 0).1.mpr (Or.inl rfl),
   (C9_reportFailure_status_filter emptyHealth 0 404 0).2 (by decide)⟩

lemma getD_mem_of_lt (l : List Account) (i : Nat) (d : Account) (h : i < l.length) :
    l.getD i d ∈ l := by
  rw [List.getD_eq_getElem l d h]
  exact List.getElem_mem h

lemma normalizeCursor_lt (c : Option Int) (len : Nat) (h : 0 < len) :
    normalizeCursor c len < len :=
  Nat.mod_lt _ h

lemma scanLoop_none_of_unhealthy (accounts : List Account) (now : Int)
    (hr : Nat → KVRead) (pf : Bool)
    (H : ∀ (mm : HealthMap) (accountId k : Nat),
      (isAccountHealthy mm accountId now (hr k)).1 = false) :
    ∀ (fuel : Nat) (m : HealthMap) (i : Nat),
      (scanLoop accounts now hr pf fuel m i).1 = none := by
  intro fuel
  induction fuel with
  | zero => intro m i; rfl
  | succ n ih =>
    intro m i
    simp only [scanLoop, H, Bool.false_eq_true, if_false]
    exact ih _ _

lemma scanLoop_some_mem (accounts : List Account) (now : Int)
    (hr : Nat → KVRead) (pf : Bool) :
    ∀ (fuel : Nat) (m : HealthMap) (i : Nat), i < accounts.length →
    ∀ (acc : Account) (w : Option Nat) (m1 : HealthMap),
      scanLoop accounts now hr pf fuel m i = (some (acc, w), m1) → acc ∈ accounts := by
  intro fuel
  induction fuel with
  | zero =>
    intro m i _ acc w m1 hs
    exact absurd hs (by simp [scanLoop])
  | succ n ih =>
    intro m i hi acc w m1 hs
    have hlen : 0 < accounts.length := Nat.lt_of_le_of_lt (Nat.zero_le i) hi
    by_cases hb : (isAccountHealthy m (accounts.getD i ⟨0⟩).id now
        (hr (accounts.length - (n + 1)))).1 = true
    · simp only [scanLoop, hb, if_true] at hs
      obtain ⟨h1, -⟩ := Prod.mk.injEq .. ▸ hs
      obtain ⟨ha, -⟩ := Prod.mk.injEq .. ▸ (Option.some.injEq .. ▸ h1)
      rw [← ha]
      exact getD_mem_of_lt accounts i ⟨0⟩ hi
    · simp only [scanLoop, hb, if_false] at hs
      exact ih _ _ (Nat.mod_lt _ hlen) acc w m1 hs

lemma getAccount_ok_mem (accounts : List Account) (h : 0 < accounts.length)
    (localIndex : Int) (m : HealthMap) (now : Int) (cr : CursorRead)
    (hr : Nat → KVRead) (pf : Bool) :
    ∃ a, (getAccount accounts localIndex m now cr hr pf).outcome = GetOutcome.ok a ∧
      a ∈ accounts := by
  have hne : accounts.length ≠ 0 := Nat.pos_iff_ne_zero.mp h
  simp only [getAccount, hne, if_false]
  cases hs : scanLoop accounts now hr pf accounts.length m
      (normalizeCursor (rawCursor cr localIndex) accounts.length) with
  | mk o m1 =>
    cases o with
    | none =>
      exact ⟨accounts.getD (normalizeCursor (rawCursor cr localIndex) accounts.length) ⟨0⟩,
        rfl, getD_mem_of_lt _ _ _ (normalizeCursor_lt _ _ h)⟩
    | some p =>
      obtain ⟨acc, w⟩ := p
      exact ⟨acc, rfl, scanLoop_some_mem accounts now hr pf accounts.length m _
        (normalizeCursor_lt _ _ h) acc w m1 hs⟩

/-- Claim C2: when every candidate the scan checks is unhealthy (whatever
the intermediate cache state), `getAccount()` still returns a value, and
that value is the account at the pre-scan (normalized) cursor position. -/
theorem C2_saturated_returns_start (accounts : List Account)
    (h : 0 < accounts.length) (localIndex : Int) (m : HealthMap) (now : Int)
    (cr : CursorRead) (hr : Nat → KVRead) (pf : Bool)
    (H : ∀ (mm : HealthMap) (accountId k : Nat),
      (isAccountHealthy mm accountId now (hr k)).1 = false) :
    (getAccount accounts localIndex m now cr hr pf).outcome =
      GetOutcome.ok (accounts.getD
        (normalizeCursor (rawCursor cr localIndex) accounts.length) ⟨0⟩) := by
  have hne : accounts.length ≠ 0 := Nat.pos_iff_ne_zero.mp h
  simp only [getAccount, hne, if_false]
  cases hs : scanLoop accounts now hr pf accounts.length m
      (normalizeCursor (rawCursor cr localIndex) accounts.length) with
  | mk o m1 =>
    have hnone := scanLoop_none_of_unhealthy accounts now hr pf H accounts.length m
      (normalizeCursor (rawCursor cr localIndex) accounts.length)
    rw [hs] at hnone
    cases o with
    | none => rfl
    | some p => exact absurd hnone (by simp)

/-- Witness for C2: a pool of two accounts, every health read finding an
active shared-store cooldown; the call returns the pre-scan cursor's
account A0. -/
theorem C2_saturated_returns_start_witness :
    (getAccount [⟨0⟩, ⟨1⟩] 0 emptyHealth 0 CursorRead.absent
        (fun _ => KVRead.value ⟨true, 0, 1, 100⟩) false).outcome =
      GetOutcome.ok ([Account.mk 0, Account.mk 1].getD
        (normalizeCursor (rawCursor CursorRead.absent 0) 2) ⟨0⟩) :=
  C2_saturated_returns_start [⟨0⟩, ⟨1⟩] (by decide) 0 emptyHealth 0
    CursorRead.absent (fun _ => KVRead.value ⟨true, 0, 1, 100⟩) false
    (fun mm accountId k => by
      unfold isAccountHealthy
      cases hmm : mm accountId with
      | none => simp [checkKV]
      | some s =>
        by_cases hc : (0 : Int) < s.cooldownEnds
        · simp [hc]
        · simp [hc, checkKV])

/-- Claim C6: `getAccount()` raises exactly when the pool is empty; for a
non-empty pool it returns an account even when every shared-store read
(cursor and health) fails, the failures degrading to safe defaults. -/
theorem C6_error_iff_empty_pool (accounts : List Account) (localIndex : Int)
    (m : HealthMap) (now : Int) (cr : CursorRead) (hr : Nat → KVRead) (pf : Bool) :
    ((getAccount accounts localIndex m now cr hr pf).outcome = GetOutcome.error ↔
      accounts = []) ∧
    (accounts ≠ [] →
      ∃ a, (getAccount accounts localIndex m now CursorRead.failure
        (fun _ => KVRead.failure) pf).outcome = GetOutcome.ok a ∧ a ∈ accounts) := by
  constructor
  · constructor
    · intro herr
      by_contra hne
      have hlen : 0 < accounts.length :=
        Nat.pos_of_ne_zero (fun h0 => hne (List.length_eq_zero.mp h0))
      obtain ⟨a, ha, -⟩ := getAccount_ok_mem accounts hlen localIndex m now cr hr pf
      rw [ha] at herr
      exact GetOutcome.noConfusion herr
    · intro hnil
      subst hnil
      rfl
  · intro hne
    have hlen : 0 < accounts.length :=
      Nat.pos_of_ne_zero (fun h0 => hne (List.length_eq_zero.mp h0))
    exact getAccount_ok_mem accounts hlen localIndex m now CursorRead.failure
      (fun _ => KVRead.failure) pf

/-- Witness for C6: a one-account pool with every store read failing still
yields an account; the error case is exercised by the empty pool. -/
theorem C6_error_iff_empty_pool_witness :
    ((getAccount ([] : List Account) 0 emptyHealth 0 CursorRead.absent
        (fun _ => KVRead.absent) false).outcome = GetOutcome.error ↔
      ([] : List Account) = []) ∧
    (∃ a, (getAccount [⟨0⟩] 0 emptyHealth 0 CursorRead.failure
        (fun _ => KVRead.failure) false).outcome = GetOutcome.ok a ∧
      a ∈ [Account.mk 0]) :=
  ⟨(C6_error_iff_empty_pool ([] : List Account) 0 emptyHealth 0 CursorRead.absent
      (fun _ => KVRead.absent) false).1,
   (C6_error_iff_empty_pool [⟨0⟩] 0 emptyHealth 0 CursorRead.absent
      (fun _ => KVRead.absent) false).2 (by decide)⟩

/-- Claim C8, counterexample to "an out-of-range value read from the shared
store is treated as 0": a cursor value of 5 over a pool of 3 is reduced to
index 2, and the account actually served is A2, not A0. -/
theorem C8_cursor_out_of_range_refuted :
    normalizeCursor (rawCursor (CursorRead.value (some 5)) 0) 3 = 2 ∧
    (getAccount [⟨0⟩, ⟨1⟩, ⟨2⟩] 0 emptyHealth 0 (CursorRead.value (some 5))
      (fun _ => KVRead.absent) false).outcome = GetOutcome.ok ⟨2⟩ := by
  decide

/-- Claim C8 as amended: every index used is in `[0, N)` (so array access
is in bounds and the account served belongs to the pool); an unparsable
(`NaN`) or negative cursor value is treated as 0; a failed cursor read
falls back to the local cursor 0; a value `≥ N` is reduced modulo `N`
rather than treated as 0. -/
theorem C8_cursor_normalization_amended (len : Nat) (v : Int) (localIndex : Int)
    (accounts : List Account) (m : HealthMap) (now : Int) (cr : CursorRead)
    (hr : Nat → KVRead) (pf : Bool) :
    (0 < len → normalizeCursor (rawCursor cr localIndex) len < len) ∧
    normalizeCursor (rawCursor (CursorRead.value none) localIndex) len = 0 ∧
    (v < 0 → normalizeCursor (rawCursor (CursorRead.value (some v)) localIndex) len = 0) ∧
    normalizeCursor (rawCursor CursorRead.failure 0) len = 0 ∧
    (0 ≤ v → normalizeCursor (rawCursor (CursorRead.value (some v)) localIndex) len =
      v.toNat % len) ∧
    (0 < accounts.length →
      ∃ a, (getAccount accounts localIndex m now cr hr pf).outcome = GetOutcome.ok a ∧
        a ∈ accounts) := by
  refine ⟨fun h => normalizeCursor_lt _ _ h, ?_, ?_, ?_, ?_, ?_⟩
  · simp [normalizeCursor, rawCursor]
  · intro hv
    simp [normalizeCursor, rawCursor, hv]
  · simp [normalizeCursor, rawCursor]
  · intro hv
    simp [normalizeCursor, rawCursor, not_lt.mpr hv]
  · intro h
    exact getAccount_ok_mem accounts h localIndex m now cr hr pf

/-- Witness for C8 (amended): a pool of 3 with cursor value 5: the start
index is 2 = 5 mod 3, in bounds, and the account served is in the pool. -/
theorem C8_cursor_normalization_amended_witness :
    normalizeCursor (rawCursor (CursorRead.value (some 5)) 0) 3 < 3 ∧
    (∃ a, (getAccount [⟨0⟩, ⟨1⟩, ⟨2⟩] 0 emptyHealth 0 (CursorRead.value (some 5))
      (fun _ => KVRead.absent) false).outcome = GetOutcome.ok a ∧
      a ∈ [Account.mk 0, Account.mk 1, Account.mk 2]) :=
  ⟨(C8_cursor_normalization_amended 3 5 0 [⟨0⟩, ⟨1⟩, ⟨2⟩] emptyHealth 0
      (CursorRead.value (some 5)) (fun _ => KVRead.absent) false).1 (by decide),
   (C8_cursor_normalization_amended 3 5 0 [⟨0⟩, ⟨1⟩, ⟨2⟩] emptyHealth 0
      (CursorRead.value (some 5)) (fun _ => KVRead.absent) false).2.2.2.2.2 (by decide)⟩

lemma scanLoop_putFails (accounts : List Account) (now : Int) (hr : Nat → KVRead) :
    ∀ (fuel : Nat) (m : HealthMap) (i : Nat),
      scanLoop accounts now hr true fuel m i =
        (match scanLoop accounts now hr false fuel m i with
         | (some (a, _), m1) => (some (a, none), m1)
         | (none, m1) => (none, m1)) := by
  intro fuel
  induction fuel with
  | zero => intro m i; rfl
  | succ n ih =>
    intro m i
    by_cases hb : (isAccountHealthy m (accounts.getD i ⟨0⟩).id now
        (hr (accounts.length - (n + 1)))).1 = true
    · simp only [scanLoop, hb, if_true]
    · simp only [scanLoop, hb, if_false]
      exact ih _ _

/-- Claim C10: a failed (thrown) awaited cursor write inside `getAccount()`
is caught: the outcome is the same account as when the write succeeds, and
nothing is recorded as written. -/
theorem C10_cursor_write_failure_transparent (accounts : List Account)
    (localIndex : Int) (m : HealthMap) (now : Int) (cr : CursorRead)
    (hr : Nat → KVRead) :
    (getAccount accounts localIndex m now cr hr true).outcome =
      (getAccount accounts localIndex m now cr hr false).outcome ∧
    (getAccount accounts localIndex m now cr hr true).cursorWrite = none := by
  by_cases hlen : accounts.length = 0
  · simp [getAccount, hlen]
  · simp only [getAccount, hlen, if_false]
    rw [scanLoop_putFails]
    cases hs : scanLoop accounts now hr false accounts.length m
        (normalizeCursor (rawCursor cr localIndex) accounts.length) with
    | mk o m1 =>
      cases o with
      | none => exact ⟨rfl, rfl⟩
      | some p =>
        obtain ⟨a, w⟩ := p
        exact ⟨rfl, rfl⟩

lemma fcAt_eq_of_eq (m1 m2 : HealthMap) (accountId : Nat) (h : m1 accountId = m2 accountId) :
    fcAt m1 accountId = fcAt m2 accountId := by
  unfold fcAt
  rw [h]

lemma fcAt_setHealth_self (m : HealthMap) (accountId : Nat) (h : AccountHealth) :
    fcAt (setHealth m accountId h) accountId = h.failureCount := by
  unfold fcAt
  rw [setHealth_self]

lemma recordSuccess_eq_of_none (m : HealthMap) (accountId : Nat)
    (hm : m accountId = none) : recordSuccess m accountId = m := by
  unfold recordSuccess
  rw [hm]

lemma recordSuccess_eq_of_some (m : HealthMap) (accountId : Nat) (cur : AccountHealth)
    (hm : m accountId = some cur) :
    recordSuccess m accountId =
      if cur.failureCount > 0 && !cur.isRateLimited then
        setHealth m accountId { cur with failureCount := 0 }
      else m := by
  unfold recordSuccess
  rw [hm]

lemma recordSuccess_other (m : HealthMap) (accountId i : Nat) (h : i ≠ accountId) :
    (recordSuccess m accountId) i = m i := by
  cases hm : m accountId with
  | none => rw [recordSuccess_eq_of_none m accountId hm]
  | some cur =>
    rw [recordSuccess_eq_of_some m accountId cur hm]
    by_cases hcond : (cur.failureCount > 0 && !cur.isRateLimited) = true
    · rw [if_pos hcond]
      exact setHealth_other _ _ _ _ h
    · rw [if_neg hcond]

lemma isAccountHealthy_tracker_cases (m : HealthMap) (accountId : Nat) (now : Int)
    (kv : KVRead) :
    (isAccountHealthy m accountId now kv).2 = m ∨
    (∃ s, m accountId = some s ∧
      (isAccountHealthy m accountId now kv).2 =
        setHealth m accountId { s with isRateLimited := false }) ∨
    (∃ kvh m1, kv = KVRead.value kvh ∧ now < kvh.cooldownEnds ∧
      (m1 = m ∨ ∃ s, m accountId = some s ∧
        m1 = setHealth m accountId { s with isRateLimited := false }) ∧
      (isAccountHealthy m accountId now kv).2 = setHealth m1 accountId kvh) := by
  unfold isAccountHealthy
  cases hm : m accountId with
  | none =>
    cases kv with
    | failure => exact Or.inl rfl
    | absent => exact Or.inl rfl
    | value kvh =>
      by_cases hc : kvh.cooldownEnds > now
      · exact Or.inr (Or.inr ⟨kvh, m, rfl, hc, Or.inl rfl, by simp [checkKV, hc]⟩)
      · exact Or.inl (by simp [checkKV, hc])
  | some s =>
    by_cases hc : s.cooldownEnds > now
    · exact Or.inl (by simp [hc])
    · simp only [hc, if_false]
      by_cases hrl : s.isRateLimited
      · cases kv with
        | failure => exact Or.inr (Or.inl ⟨s, rfl, by simp [checkKV, hrl]⟩)
        | absent => exact Or.inr (Or.inl ⟨s, rfl, by simp [checkKV, hrl]⟩)
        | value kvh =>
          by_cases hck : kvh.cooldownEnds > now
          · exact Or.inr (Or.inr ⟨kvh, setHealth m accountId { s with isRateLimited := false },
              rfl, hck, Or.inr ⟨s, rfl, rfl⟩, by simp [checkKV, hrl, hck]⟩)
          · exact Or.inr (Or.inl ⟨s, rfl, by simp [checkKV, hrl, hck]⟩)
      · cases kv with
        | failure => exact Or.inl (by simp [checkKV, hrl])
        | absent => exact Or.inl (by simp [checkKV, hrl])
        | value kvh =>
          by_cases hck : kvh.cooldownEnds > now
          · exact Or.inr (Or.inr ⟨kvh, m, rfl, hck, Or.inl rfl, by simp [checkKV, hrl, hck]⟩)
          · exact Or.inl (by simp [checkKV, hrl, hck])

lemma isAccountHealthy_other (m : HealthMap) (accountId i : Nat) (now : Int)
    (kv : KVRead) (h : i ≠ accountId) :
    ((isAccountHealthy m accountId now kv).2) i = m i := by
  rcases isAccountHealthy_tracker_cases m accountId now kv with
    h1 | ⟨s, _, h2⟩ | ⟨kvh, m1, _, _, hm1, h3⟩
  · rw [h1]
  · rw [h2]
    exact setHealth_other _ _ _ _ h
  · rw [h3, setHealth_other _ _ _ _ h]
    rcases hm1 with rfl | ⟨s, _, rfl⟩
    · rfl
    · exact setHealth_other _ _ _ _ h

/-- Claim C7, counterexample: `isAccountHealthy` — not `recordSuccess` —
lowers a local `failureCount` from 5 to 1 by adopting a shared-store
record (written by another instance) with a smaller count. -/
theorem C7_failureCount_decrease_refuted :
    fcAt ((isAccountHealthy c7Map 7 20 (KVRead.value c7Rec)).2) 7 = 1 ∧
    fcAt c7Map 7 = 5 := by
  decide

/-- Claim C7 as amended: over every tracker/rotator operation, an
account's local `failureCount` never decreases, except the explicit
`recordSuccess` reset to 0 and the adoption, inside `isAccountHealthy`,
of a shared-store record (with an active cooldown) carrying a smaller
count. -/
theorem C7_failureCount_monotone_amended (m : HealthMap) (op : TrackerOp)
    (accountId : Nat)
    (hdec : fcAt (applyOp m op) accountId < fcAt m accountId) :
    (op = TrackerOp.success accountId ∧ fcAt (applyOp m op) accountId = 0) ∨
    (∃ (now : Int) (kvh : AccountHealth),
      op = TrackerOp.check accountId now (KVRead.value kvh) ∧
      now < kvh.cooldownEnds ∧ kvh.failureCount < fcAt m accountId) := by
  cases op with
  | fail id2 now =>
    exfalso
    by_cases hid : accountId = id2
    · subst hid
      rw [show applyOp m (TrackerOp.fail accountId now) = recordFailure m accountId now
        from rfl, fcAt_recordFailure_self] at hdec
      omega
    · have heq : (recordFailure m id2 now) accountId = m accountId := by
        unfold recordFailure
        exact setHealth_other _ _ _ _ hid
      rw [show applyOp m (TrackerOp.fail id2 now) = recordFailure m id2 now from rfl,
        fcAt_eq_of_eq _ _ _ heq] at hdec
      omega
  | success id2 =>
    by_cases hid : accountId = id2
    · subst hid
      cases hm : m accountId with
      | none =>
        exfalso
        rw [show applyOp m (TrackerOp.success accountId) = recordSuccess m accountId
          from rfl, recordSuccess_eq_of_none m accountId hm] at hdec
        omega
      | some cur =>
        by_cases hcond : (cur.failureCount > 0 && !cur.isRateLimited) = true
        · left
          refine ⟨rfl, ?_⟩
          rw [show applyOp m (TrackerOp.success accountId) = recordSuccess m accountId
            from rfl, recordSuccess_eq_of_some m accountId cur hm, if_pos hcond,
            fcAt_setHealth_self]
        · exfalso
          rw [show applyOp m (TrackerOp.success accountId) = recordSuccess m accountId
            from rfl, recordSuccess_eq_of_some m accountId cur hm, if_neg hcond] at hdec
          omega
    · exfalso
      rw [show applyOp m (TrackerOp.success id2) = recordSuccess m id2 from rfl,
        fcAt_eq_of_eq _ _ _ (recordSuccess_other m id2 accountId hid)] at hdec
      omega
  | check id2 now kv =>
    by_cases hid : accountId = id2
    · subst hid
      rcases isAccountHealthy_tracker_cases m accountId now kv with
        h1 | ⟨s, hm, h2⟩ | ⟨kvh, m1, hkv, hcool, _, h3⟩
      · exfalso
        rw [show applyOp m (TrackerOp.check accountId now kv) =
          (isAccountHealthy m accountId now kv).2 from rfl, h1] at hdec
        omega
      · exfalso
        rw [show applyOp m (TrackerOp.check accountId now kv) =
          (isAccountHealthy m accountId now kv).2 from rfl, h2,
          fcAt_setHealth_self] at hdec
        have heqfc : fcAt m accountId = s.failureCount := by
          unfold fcAt
          rw [hm]
        rw [heqfc] at hdec
        simp at hdec
      · right
        refine ⟨now, kvh, by rw [hkv], hcool, ?_⟩
        rw [show applyOp m (TrackerOp.check accountId now kv) =
          (isAccountHealthy m accountId now kv).2 from rfl, h3,
          fcAt_setHealth_self] at hdec
        exact hdec
    · exfalso
      rw [show applyOp m (TrackerOp.check id2 now kv) =
        (isAccountHealthy m id2 now kv).2 from rfl,
        fcAt_eq_of_eq _ _ _ (isAccountHealthy_other m id2 accountId now kv hid)] at hdec
      omega

/-- Witness for C7 (amended): the decrease of the counterexample input is
classified as a shared-store adoption. -/
theorem C7_failureCount_monotone_amended_witness :
    (TrackerOp.check 7 20 (KVRead.value c7Rec) = TrackerOp.success 7 ∧
      fcAt (applyOp c7Map (TrackerOp.check 7 20 (KVRead.value c7Rec))) 7 = 0) ∨
    (∃ (now : Int) (kvh : AccountHealth),
      TrackerOp.check 7 20 (KVRead.value c7Rec) =
        TrackerOp.check 7 now (KVRead.value kvh) ∧
      now < kvh.cooldownEnds ∧ kvh.failureCount < fcAt c7Map 7) :=
  C7_failureCount_monotone_amended c7Map (TrackerOp.check 7 20 (KVRead.value c7Rec)) 7
    (by decide)

lemma scanLoop_emptyHealth (accounts : List Account) (now : Int) :
    ∀ (fuel i : Nat), fuel ≠ 0 →
      scanLoop accounts now (fun _ => KVRead.absent) false fuel emptyHealth i =
        (some (accounts.getD i ⟨0⟩, some ((i + 1) % accounts.length)), emptyHealth) := by
  intro fuel i hf
  obtain ⟨f, rfl⟩ := Nat.exists_eq_succ_of_ne_zero hf
  rfl

lemma getAccount_all_healthy (accounts : List Account) (h : 0 < accounts.length)
    (localIndex : Int) (cr : CursorRead) :
    getAccount accounts localIndex emptyHealth 0 cr (fun _ => KVRead.absent) false =
      ⟨GetOutcome.ok (accounts.getD
          (normalizeCursor (rawCursor cr localIndex) accounts.length) ⟨0⟩),
        emptyHealth,
        some ((normalizeCursor (rawCursor cr localIndex) accounts.length + 1) %
          accounts.length)⟩ := by
  have hne : accounts.length ≠ 0 := Nat.pos_iff_ne_zero.mp h
  simp only [getAccount, hne, if_false]
  rw [scanLoop_emptyHealth accounts 0 accounts.length _ hne]

lemma startIndex_value (cur n : Nat) (h : cur < n) :
    normalizeCursor (rawCursor (CursorRead.value (some (cur : Int))) 0) n = cur := by
  simp only [normalizeCursor, rawCursor]
  rw [if_neg (not_lt.mpr (Int.natCast_nonneg cur)), Int.toNat_natCast]
  exact Nat.mod_eq_of_lt h

lemma startIndex_absent (n : Nat) :
    normalizeCursor (rawCursor CursorRead.absent 0) n = 0 := by
  simp [normalizeCursor, rawCursor]

lemma poolOf_length (n : Nat) : (poolOf n).length = n := by
  simp [poolOf]

lemma poolOf_getD (n cur : Nat) (h : cur < n) : (poolOf n).getD cur ⟨0⟩ = ⟨cur⟩ := by
  rw [List.getD_eq_getElem _ _ (by rw [poolOf_length]; exact h)]
  simp [poolOf]

lemma stepCall_none (n : Nat) (hn : 0 < n) :
    stepCall (poolOf n) (none, emptyHealth) =
      (GetOutcome.ok ⟨0⟩, (some (1 % n), emptyHealth)) := by
  have hpos : 0 < (poolOf n).length := by rw [poolOf_length]; exact hn
  show ((getAccount (poolOf n) 0 emptyHealth 0 CursorRead.absent
      (fun _ => KVRead.absent) false).outcome,
    ((match (getAccount (poolOf n) 0 emptyHealth 0 CursorRead.absent
        (fun _ => KVRead.absent) false).cursorWrite with
      | some v => some v
      | none => (none : Option Nat)),
     (getAccount (poolOf n) 0 emptyHealth 0 CursorRead.absent
      (fun _ => KVRead.absent) false).tracker)) = _
  rw [getAccount_all_healthy (poolOf n) hpos 0 CursorRead.absent]
  simp only [poolOf_length, startIndex_absent]
  rw [poolOf_getD n 0 hn]

lemma stepCall_some (n : Nat) (hn : 0 < n) (cur : Nat) (hcur : cur < n) :
    stepCall (poolOf n) (some cur, emptyHealth) =
      (GetOutcome.ok ⟨cur⟩, (some ((cur + 1) % n), emptyHealth)) := by
  have hpos : 0 < (poolOf n).length := by rw [poolOf_length]; exact hn
  show ((getAccount (poolOf n) 0 emptyHealth 0 (CursorRead.value (some (cur : Int)))
      (fun _ => KVRead.absent) false).outcome,
    ((match (getAccount (poolOf n) 0 emptyHealth 0 (CursorRead.value (some (cur : Int)))
        (fun _ => KVRead.absent) false).cursorWrite with
      | some v => some v
      | none => some cur),
     (getAccount (poolOf n) 0 emptyHealth 0 (CursorRead.value (some (cur : Int)))
      (fun _ => KVRead.absent) false).tracker)) = _
  rw [getAccount_all_healthy (poolOf n) hpos 0 (CursorRead.value (some (cur : Int)))]
  simp only [poolOf_length, startIndex_value cur n hcur]
  rw [poolOf_getD n cur hcur]

lemma callSeq_spec (n : Nat) (hn : 0 < n) :
    ∀ k, callSeq n k = (GetOutcome.ok ⟨k % n⟩, (some ((k + 1) % n), emptyHealth)) := by
  intro k
  induction k with
  | zero =>
    show stepCall (poolOf n) (none, emptyHealth) = _
    rw [stepCall_none n hn]
    simp
  | succ k ih =>
    show stepCall (poolOf n) (callSeq n k).2 = _
    rw [ih]
    show stepCall (poolOf n) (some ((k + 1) % n), emptyHealth) = _
    rw [stepCall_some n hn ((k + 1) % n) (Nat.mod_lt _ hn)]
    rw [Nat.mod_add_mod]

/-- Claim C1: against an idealized shared store (cursor reads see the last
written value, initially absent; every write succeeds) with every account
healthy, the k-th `getAccount()` call over a pool of `n ≥ 1` accounts
returns account `k mod n`: each account exactly once per round, in
configuration order starting at 0. -/
theorem C1_round_robin_fair (n k : Nat) (hn : 0 < n) :
    (callSeq n k).1 = GetOutcome.ok ⟨k % n⟩ := by
  rw [callSeq_spec n hn k]

/-- Witness for C1: a pool of 3 yields A0 on the first call and A1 on the
fifth. -/
theorem C1_round_robin_fair_witness :
    0 < 3 ∧ (callSeq 3 0).1 = GetOutcome.ok ⟨0 % 3⟩ ∧
    (callSeq 3 4).1 = GetOutcome.ok ⟨4 % 3⟩ :=
  ⟨by decide, C1_round_robin_fair 3 0 (by decide), C1_round_robin_fair 3 4 (by decide)⟩

end GeminiRotator
